import Mathlib

/-!
# ichain: store keys, REST request handlers and sequence-based replay protection

A shallow embedding of

* `x/asset/keeper_keys.go` (the byte keys of the asset store),
* `x/asset/client/rest/addAssetQuantity.go` and
  `x/asset/client/rest/createProposal.go` (two REST handlers),
* the replay guard and the two-phase transaction router exercised by
  `app/app_test.go`,

followed by the properties established about them.
-/

namespace Ichain

/-! ## Go values -/

/-- A Go `string`: an immutable, possibly empty, sequence of bytes. -/
abbrev GoString := List UInt8

/-- The conversion `[]byte(s)`: the bytes of `s`, in order. -/
def bytes (s : GoString) : List UInt8 := s

/-- The bytes of `sdk.Address`, a byte slice. -/
abbrev Address := List UInt8

/-- One digit of upper-case hexadecimal text. -/
def hexDigit (n : Nat) : UInt8 :=
  if n < 10 then UInt8.ofNat (48 + n) else UInt8.ofNat (55 + n)

/-- One `String` method an address type of the SDK has: the upper-case hexadecimal
text of the bytes, two digits a byte. -/
def hexString : Address → GoString
  | [] => []
  | b :: rest => hexDigit (b.toNat / 16) :: hexDigit (b.toNat % 16) :: hexString rest

/-! ## `x/asset/keeper_keys.go`

Every function of the file is `append(prefix, more...)`. The prefixes are
composite literals of length and capacity one, so `append` never writes into
their backing array and its value is the concatenation of its arguments. -/

namespace asset

/-- Store prefix for each key to an asset. -/
def AssetKey : List UInt8 := [0x00]

/-- Store prefix for each key to an account. -/
def AccountAssetKey : List UInt8 := [0x01]

/-- Store prefix for each key to an account a proposal. -/
def ProposalRecipientKey : List UInt8 := [0x02]

/-- Store prefix for each key to an asset parent a an asset child. -/
def AssetChildrenKey : List UInt8 := [0x03]

/-- The key for the record of an asset. -/
def GetAssetKey (assetID : GoString) : List UInt8 :=
  AssetKey ++ bytes assetID

/-- The key for an account for all assets. The method `addr.String()` belongs to
the SDK and is the parameter `addrString`. -/
def GetAccountAssetsKey (addrString : Address → GoString) (addr : Address) : List UInt8 :=
  AccountAssetKey ++ bytes (addrString addr)

/-- The key for an account for an asset. -/
def GetAccountAssetKey (addrString : Address → GoString) (addr : Address)
    (assetID : GoString) : List UInt8 :=
  GetAccountAssetsKey addrString addr ++ bytes assetID

/-- The key for a parent asset for all its children. -/
def GetAssetChildrensKey (parent : GoString) : List UInt8 :=
  AssetChildrenKey ++ bytes parent

/-- The key for a parent asset for a child asset. -/
def GetAssetChildrenKey (parent children : GoString) : List UInt8 :=
  GetAssetChildrensKey parent ++ bytes children

end asset

/-! ## `x/asset/client/rest`

A handler is a function of the decoded request and of the services it calls:
the key base, the address decoder, the signer and the node. What it writes to
the response and which calls it makes are its result. A Go `error` is
represented by its message. -/

namespace rest

/-- A Go string literal. -/
def lit (s : String) : GoString := s.toUTF8.data.toList

/-- A Go `error`, as the text of `err.Error()`. -/
abbrev GoError := GoString

/-- The fields the two handlers read of `baseBody`, whose declaration is in another
file of the package. -/
structure baseBody where
  Name : GoString
  LocalAccountName : GoString
  Password : GoString
  Gas : Int
  AccountNumber : Int
  Sequence : Int

/-- What the handlers read of a `keys.Info`: the address of its public key. -/
structure Info where
  PubKeyAddress : Address

/-- An `sdk.Int`: a struct around the pointer `i *big.Int`. The zero value of the
type, which a body without `"quantity"` decodes to, holds the nil pointer, here
`none`; a body with a quantity decodes to `some` number of either sign. -/
structure sdkInt where
  i : Option Int

/-- The method `IsZero` of `sdk.Int`, `i.i.Sign() == 0`; `none` is the panic of the
call on the nil pointer. -/
def sdkInt.IsZero (x : sdkInt) : Option Bool :=
  match x.i with
  | none => none
  | some v => some (decide (v = 0))

/-- The message `asset.MsgAddQuantity`, with the fields the handler fills. -/
structure MsgAddQuantity where
  Sender : Address
  AssetID : GoString
  Quantity : sdkInt

/-- The request body of the add-quantity endpoint. -/
structure addAssetQuantityBody where
  BaseReq : baseBody
  Quantity : sdkInt

/-- How a run of the function wrapped in `addAssetQuantityHandlerFn` ends: in a panic,
in a returned error (no message was built), or in the call
`signAndBuild(ctx, cdc, w, m.BaseReq, msg)` followed by `return nil`. -/
inductive Outcome where
  | panic
  | returned (err : GoError)
  | signAndBuild (baseReq : baseBody) (msg : MsgAddQuantity)

/-- The function wrapped by `withErrHandler` in `addAssetQuantityHandlerFn`.

* `vars` is `mux.Vars(r)`, read as a Go map (`""` for an absent key);
* `decoded` is the outcome of `cdc.UnmarshalJSON(body, &m)`;
* `validate` is `baseBody.Validate` and `kbGet` is `kb.Get`. -/
def addAssetQuantityHandlerFn (validate : baseBody → Option GoError)
    (kbGet : GoString → Except GoError Info) (vars : GoString → GoString)
    (decoded : Except GoError addAssetQuantityBody) : Outcome :=
  match decoded with
  | .error err => .returned err
  | .ok m =>
    match validate m.BaseReq with
    | some err => .returned err
    | none =>
      match m.Quantity.IsZero with
      | none => .panic
      | some true => .returned (lit "Quantity is required")
      | some false =>
        match kbGet m.BaseReq.Name with
        | .error err => .returned err
        | .ok info =>
          let msg : MsgAddQuantity :=
            { Sender := info.PubKeyAddress
              AssetID := vars (lit "id")
              Quantity := m.Quantity }
          .signAndBuild m.BaseReq msg

/-- The request body of the create-proposal endpoint; `asset.ProposalRole` is an
integer type (it is compared with `0`). -/
structure createProposalBody where
  base : baseBody
  Recipient : GoString
  Propertipes : List GoString
  Role : Int

/-- The message `asset.CreateProposalMsg`. -/
structure CreateProposalMsg where
  AssetID : GoString
  Issuer : Address
  Recipient : Address
  Propertipes : List GoString
  Role : Int

/-- The arguments of one call `ctx.SignAndBuild(name, passphrase, msg, cdc)`, with the
gas, account number and sequence set on `ctx` before it. -/
structure SignCall where
  Gas : Int
  AccountNumber : Int
  Sequence : Int
  name : GoString
  passphrase : GoString
  msg : CreateProposalMsg

/-- The services `CreateProposalHandlerFn` calls; `Res` is the type of a broadcast
result. -/
structure Services (Res : Type) where
  GetAccAddressBech32 : GoString → Except GoError Address
  kbGet : GoString → Except GoError Info
  SignAndBuild : SignCall → Except GoError (List UInt8)
  BroadcastTx : List UInt8 → Except GoError Res
  MarshalIndent : Res → Except GoError GoString

/-- What a run of `CreateProposalHandlerFn` leaves behind: the status and body of the
response, the message it built (if it got that far), the call to `SignAndBuild` (if
made) and the bytes given to `BroadcastTx` (if called). -/
structure Run where
  status : Nat
  body : GoString
  msg : Option CreateProposalMsg
  signed : Option SignCall
  broadcast : Option (List UInt8)

def StatusOK : Nat := 200

def StatusBadRequest : Nat := 400

def StatusUnauthorized : Nat := 401

def StatusInternalServerError : Nat := 500

/-- A run that ends before the message is built. -/
def Run.early (status : Nat) (body : GoString) : Run :=
  { status := status, body := body, msg := none, signed := none, broadcast := none }

/-- The handler returned by `CreateProposalHandlerFn`; `decoded` is the outcome of
`json.Unmarshal(body, &m)` and `vars` is `mux.Vars(r)`. -/
def CreateProposalHandlerFn {Res : Type} (sv : Services Res) (vars : GoString → GoString)
    (decoded : Except GoError createProposalBody) : Run :=
  match decoded with
  | .error err => Run.early StatusBadRequest err
  | .ok m =>
    if m.base.LocalAccountName = [] then
      Run.early StatusBadRequest (lit "account_name is required")
    else if m.base.Password = [] then
      Run.early StatusBadRequest (lit "password is required")
    else if m.Recipient.length = 0 then
      Run.early StatusBadRequest (lit "recipient is required")
    else if m.Propertipes.length = 0 then
      Run.early StatusBadRequest (lit "propertipes is required")
    else if m.Role = 0 then
      Run.early StatusBadRequest (lit "ROLE is required")
    else
      match sv.GetAccAddressBech32 m.Recipient with
      | .error err => Run.early StatusBadRequest err
      | .ok recipient =>
        match sv.kbGet m.base.LocalAccountName with
        | .error err => Run.early StatusUnauthorized err
        | .ok info =>
          let msg : CreateProposalMsg :=
            { AssetID := vars (lit "id")
              Issuer := info.PubKeyAddress
              Recipient := recipient
              Propertipes := m.Propertipes
              Role := m.Role }
          let call : SignCall :=
            { Gas := m.base.Gas
              AccountNumber := m.base.AccountNumber
              Sequence := m.base.Sequence
              name := m.base.LocalAccountName
              passphrase := m.base.Password
              msg := msg }
          match sv.SignAndBuild call with
          | .error err =>
            { status := StatusUnauthorized, body := err, msg := some msg,
              signed := some call, broadcast := none }
          | .ok txBytes =>
            match sv.BroadcastTx txBytes with
            | .error err =>
              { status := StatusInternalServerError, body := err, msg := some msg,
                signed := some call, broadcast := some txBytes }
            | .ok res =>
              match sv.MarshalIndent res with
              | .error err =>
                { status := StatusInternalServerError, body := err, msg := some msg,
                  signed := some call, broadcast := some txBytes }
              | .ok output =>
                { status := StatusOK, body := output, msg := some msg,
                  signed := some call, broadcast := some txBytes }

/-- The run answers `400 Bad Request` with `text`, and no message was built, signed
or broadcast. -/
def Run.rejectedWith (r : Run) (text : GoString) : Prop :=
  r.status = StatusBadRequest ∧ r.body = text ∧ r.msg = none ∧ r.signed = none ∧
    r.broadcast = none

/-- A base request naming the local key `"a"`. -/
def sampleBaseReq : baseBody :=
  { Name := [0x61], LocalAccountName := [0x61], Password := [0x70], Gas := 0,
    AccountNumber := 0, Sequence := 0 }

end rest

/-! ## Replay guard and transaction router

`app/app_test.go` drives `IchainApp.Check` and `IchainApp.Deliver`; the application
and the sequence check behind them are not among the source files. -/

namespace app

/-- Modelled from the spec: the kinds of error a transaction can be answered with (the
error codes of the application are not among the source files). -/
inductive ErrorKind where
  | NotFound
  | DuplicateID
  | DuplicatePending
  | Unauthorized
  | WrongRecipient
  | NotPending
  | Overflow
  | ParentNotFound
  deriving DecidableEq, Repr

/-- Modelled from the spec: the answer to a transaction, `Ok` or `Err(kind)` (the
result type of the application is not among the source files). -/
inductive Result where
  | Ok
  | Err (kind : ErrorKind)
  deriving DecidableEq, Repr

/-- Modelled from the spec: the store of per-account sequence counters behind the
Replay Guard (the application code that keeps it is not among the source files). An
account that was never seen has no entry. -/
abbrev Counters := Address → Option Int

/-- Modelled from the spec: the current counter of an account, "default 0 if account
unseen" (the application code that reads it is not among the source files). -/
def counter (store : Counters) (account : Address) : Int :=
  (store account).getD 0

/-- Modelled from the spec: the store with the counter of one account set (the
application code that writes it is not among the source files). -/
def setCounter (store : Counters) (account : Address) (value : Int) : Counters :=
  fun a => if a = account then some value else store a

/-- Modelled from the spec: `CheckAndAdvance(account, declaredSeq)` of the Replay Guard
(the ante handler the application installs is not among the source files). It "reads
current counter (default 0 if account unseen); `Unauthorized` unless
`declaredSeq == counter`; on success, counter persisted as `counter + 1`". The second
component is the store the check leaves behind. -/
def CheckAndAdvance (store : Counters) (account : Address) (declaredSeq : Int) :
    Result × Counters :=
  if declaredSeq = counter store account then
    (Result.Ok, setCounter store account (counter store account + 1))
  else
    (Result.Err ErrorKind.Unauthorized, store)

/-- Modelled from the spec: a decoded, verified transaction as the Transaction Router
receives it (the transaction types are not among the source files): "the verified
signer address and declared sequence", and a message of some type `Msg`. -/
structure Tx (Msg : Type) where
  signer : Address
  sequence : Int
  msg : Msg

/-- Modelled from the spec: the two views of the counters the two pipelines work on
(the application that holds them is not among the source files): the durable state of
the commit pipeline and the "mutable but discardable view" the speculative pipeline
last worked on. -/
structure State where
  durable : Counters
  transient : Counters

/-- Modelled from the spec: `Validate(tx)` of the Transaction Router (`IchainApp.Check`
is not among the source files). It "runs Replay Guard check and message-specific
validity checks", the parameter `valid`, "against a transient snapshot of state; never
mutates durable state". The snapshot is taken of the durable state for this call; the
check runs on it as in the commit phase, with "no persistence": the counter advances
in the transient view only, which the next snapshot replaces, "so that re-validating
the same transaction before commit yields consistent results". -/
def Validate {Msg : Type} (valid : Msg → Option ErrorKind) (s : State) (tx : Tx Msg) :
    Result × State :=
  match CheckAndAdvance s.durable tx.signer tx.sequence with
  | (Result.Err kind, _) => (Result.Err kind, s)
  | (Result.Ok, view) =>
    match valid tx.msg with
    | some kind => (Result.Err kind, s)
    | none => (Result.Ok, { durable := s.durable, transient := view })

/-- Modelled from the spec: `Deliver(tx)` of the Transaction Router, up to the
dispatch of the operation to the keepers (`IchainApp.Deliver` is not among the source
files). It "re-runs the same checks against durable state, advances the Replay Guard
counter"; a rejected transaction leaves no effect. -/
def Deliver {Msg : Type} (valid : Msg → Option ErrorKind) (s : State) (tx : Tx Msg) :
    Result × State :=
  match CheckAndAdvance s.durable tx.signer tx.sequence with
  | (Result.Err kind, _) => (Result.Err kind, s)
  | (Result.Ok, store) =>
    match valid tx.msg with
    | some kind => (Result.Err kind, s)
    | none => (Result.Ok, { durable := store, transient := s.transient })

/-- Modelled from the spec: the `Commit` boundary, "after which speculative state is
reset" to the durable state (the application is not among the source files). -/
def Commit (s : State) : State :=
  { durable := s.durable, transient := s.durable }

/-- Modelled from the spec: the state after validating the transactions of a list, one
after the other, whatever the answers ("calls `Validate(tx)` zero or more times before
a block"). -/
def validateAll {Msg : Type} (valid : Msg → Option ErrorKind) (s : State) :
    List (Tx Msg) → State
  | [] => s
  | tx :: rest => validateAll valid (Validate valid s tx).2 rest

/-- Modelled from the spec: the state of a chain on which no account was seen yet
(genesis initialization is not among the source files). -/
def genesis : State :=
  { durable := fun _ => none, transient := fun _ => none }

/-- A transaction of the account `[0x0A]` with no message content. -/
def sampleTx (sequence : Int) : Tx Unit :=
  { signer := [0x0A], sequence := sequence, msg := () }

/-- The message check that accepts every message. -/
def allValid (_ : Unit) : Option ErrorKind := none

end app

end Ichain

/-! ## Properties of the store keys -/

namespace Ichain

theorem hexDigit_injective_of_lt (m n : Nat) (hm : m < 16) (hn : n < 16)
    (h : hexDigit m = hexDigit n) : m = n := by
  have key : ∀ i j : Fin 16, hexDigit i.val = hexDigit j.val → i = j := by decide
  have := key ⟨m, hm⟩ ⟨n, hn⟩ h
  exact congrArg Fin.val this

theorem hexString_length (a : Address) : (hexString a).length = 2 * a.length := by
  induction a with
  | nil => rfl
  | cons b rest ih => simp [hexString, ih]; omega

theorem hexString_injective : Function.Injective hexString := by
  intro a
  induction a with
  | nil =>
    intro a' h
    cases a' with
    | nil => rfl
    | cons b rest => simp [hexString] at h
  | cons b rest ih =>
    intro a' h
    cases a' with
    | nil => simp [hexString] at h
    | cons b' rest' =>
      simp only [hexString, List.cons.injEq] at h
      obtain ⟨h1, h2, h3⟩ := h
      have hb : b.toNat < 256 := b.val.isLt
      have hb' : b'.toNat < 256 := b'.val.isLt
      have e1 := hexDigit_injective_of_lt _ _ (by omega) (by omega) h1
      have e2 := hexDigit_injective_of_lt _ _ (Nat.mod_lt _ (by decide))
        (Nat.mod_lt _ (by decide)) h2
      have e : b.toNat = b'.toNat := by omega
      have hbb : b = b' := UInt8.ext e
      rw [hbb, ih h3]

end Ichain

namespace Ichain.asset

theorem GetAssetKey_eq_cons (id : GoString) : GetAssetKey id = 0x00 :: id := rfl

theorem GetAccountAssetsKey_eq_cons (addrString : Address → GoString) (a : Address) :
    GetAccountAssetsKey addrString a = 0x01 :: addrString a := rfl

theorem GetAccountAssetKey_eq_cons (addrString : Address → GoString) (a : Address)
    (id : GoString) :
    GetAccountAssetKey addrString a id = 0x01 :: (addrString a ++ id) := rfl

theorem GetAssetChildrensKey_eq_cons (p : GoString) :
    GetAssetChildrensKey p = 0x03 :: p := rfl

theorem GetAssetChildrenKey_eq_cons (p c : GoString) :
    GetAssetChildrenKey p c = 0x03 :: (p ++ c) := rfl

/-- The children scan for `p` meets the entry `(p', c)` exactly when the bytes of `p`
start the bytes of `p'` followed by those of `c`. -/
theorem GetAssetChildrensKey_isPrefix_iff (p p' c : GoString) :
    GetAssetChildrensKey p <+: GetAssetChildrenKey p' c ↔ p <+: p' ++ c := by
  rw [GetAssetChildrensKey_eq_cons, GetAssetChildrenKey_eq_cons, List.cons_prefix_cons]
  simp

/-- Two children keys are equal exactly when parent followed by child spell the same
bytes. -/
theorem GetAssetChildrenKey_eq_iff (p c p' c' : GoString) :
    GetAssetChildrenKey p c = GetAssetChildrenKey p' c' ↔ p ++ c = p' ++ c' := by
  rw [GetAssetChildrenKey_eq_cons, GetAssetChildrenKey_eq_cons]
  simp

/-- A list that starts two lists of which it has the length of the shorter start is
that start. -/
theorem eq_of_isPrefix_append_of_length_eq {α : Type} (x y z : List α)
    (hlen : x.length = y.length) (h : x <+: y ++ z) : x = y := by
  have hy : y <+: y ++ z := ⟨z, rfl⟩
  have hxy : x <+: y := List.prefix_of_prefix_length_le h hy (Nat.le_of_eq hlen)
  exact List.IsPrefix.eq_of_length hxy hlen

/-- C1, as stated, fails: scanning the children of `"a"` meets the entry of parent
`"ab"` with the empty child identifier. -/
theorem childrens_scan_meets_other_parent :
    GetAssetChildrensKey [0x61] <+: GetAssetChildrenKey [0x61, 0x62] [] ∧
      ([0x61, 0x62] : GoString) ≠ [0x61] := by
  decide

/-- C1 (amended): for asset identifiers `p`, `p'` of the same byte length and every
`c`, if `GetAssetChildrensKey p` is a byte-prefix of `GetAssetChildrenKey p' c` then
`p' = p`. -/
theorem childrens_scan_same_length_parent (p p' c : GoString)
    (hlen : (bytes p).length = (bytes p').length)
    (hscan : GetAssetChildrensKey p <+: GetAssetChildrenKey p' c) : p' = p := by
  rw [GetAssetChildrensKey_isPrefix_iff] at hscan
  exact (eq_of_isPrefix_append_of_length_eq p p' c hlen hscan).symm

theorem childrens_scan_same_length_parent_witness :
    GetAssetChildrensKey [0x61, 0x62] <+: GetAssetChildrenKey [0x61, 0x62] [0x63] ∧
      ([0x61, 0x62] : GoString) = [0x61, 0x62] :=
  ⟨by decide, childrens_scan_same_length_parent [0x61, 0x62] [0x61, 0x62] [0x63]
    (by decide) (by decide)⟩

/-- C2, as stated, fails: parent `"a"` with child `"b"` and parent `"ab"` with the empty
child have the same key. -/
theorem children_key_shared_by_two_pairs :
    GetAssetChildrenKey [0x61] [0x62] = GetAssetChildrenKey [0x61, 0x62] [] ∧
      ¬ (([0x61] : GoString) = [0x61, 0x62] ∧ ([0x62] : GoString) = []) := by
  decide

/-- C2 (amended): for parents `p`, `p'` of the same byte length,
`GetAssetChildrenKey p c = GetAssetChildrenKey p' c'` implies `p = p'` and `c = c'`. -/
theorem children_key_determines_pair (p c p' c' : GoString)
    (hlen : (bytes p).length = (bytes p').length)
    (hkey : GetAssetChildrenKey p c = GetAssetChildrenKey p' c') : p = p' ∧ c = c' := by
  rw [GetAssetChildrenKey_eq_iff] at hkey
  exact List.append_inj hkey hlen

theorem children_key_determines_pair_witness :
    ([0x61] : GoString) = [0x61] ∧ ([0x62] : GoString) = [0x62] :=
  children_key_determines_pair [0x61] [0x62] [0x61] [0x62] (by decide) (by decide)

/-- C3: when `addr.String()` is injective and gives addresses of one length texts of
one length, then for addresses `a`, `a'` of the same byte length and every asset
identifier `id`, `GetAccountAssetsKey a'` is a byte-prefix of
`GetAccountAssetKey a id` if and only if `a' = a`. -/
theorem account_scan_selects_one_account (addrString : Address → GoString)
    (hinj : Function.Injective addrString)
    (hpres : ∀ x y : Address, x.length = y.length →
      (addrString x).length = (addrString y).length)
    (a a' : Address) (id : GoString) (hlen : a.length = a'.length) :
    GetAccountAssetsKey addrString a' <+: GetAccountAssetKey addrString a id ↔ a' = a := by
  rw [GetAccountAssetsKey_eq_cons, GetAccountAssetKey_eq_cons, List.cons_prefix_cons]
  constructor
  · rintro ⟨-, h⟩
    exact hinj (eq_of_isPrefix_append_of_length_eq _ _ _ (hpres a' a hlen.symm) h)
  · rintro rfl
    exact ⟨rfl, _, rfl⟩

theorem account_scan_selects_one_account_witness :
    (GetAccountAssetsKey hexString [0xAB, 0x01] <+:
        GetAccountAssetKey hexString [0xAB, 0x02] [0x61] ↔
      ([0xAB, 0x01] : Address) = [0xAB, 0x02]) ∧
    ¬ GetAccountAssetsKey hexString [0xAB, 0x01] <+:
        GetAccountAssetKey hexString [0xAB, 0x02] [0x61] :=
  ⟨account_scan_selects_one_account hexString hexString_injective
      (fun x y h => by rw [hexString_length, hexString_length, h])
      [0xAB, 0x02] [0xAB, 0x01] [0x61] (by decide),
    by decide⟩

/-- C5: every key is its namespace byte followed by the bytes of the entity
identifiers, in the order of the arguments. -/
theorem key_is_namespace_byte_then_identifier (addrString : Address → GoString)
    (id p c : GoString) (a : Address) :
    GetAssetKey id = [0x00] ++ bytes id ∧
    GetAccountAssetsKey addrString a = [0x01] ++ bytes (addrString a) ∧
    GetAccountAssetKey addrString a id = [0x01] ++ bytes (addrString a) ++ bytes id ∧
    GetAssetChildrensKey p = [0x03] ++ bytes p ∧
    GetAssetChildrenKey p c = [0x03] ++ bytes p ++ bytes c :=
  ⟨rfl, rfl, rfl, rfl, rfl⟩

/-- C10: `GetAssetKey id = GetAssetKey id'` implies `id = id'`, and the key of `id` is
one byte longer than `id`. -/
theorem GetAssetKey_injective_and_length (id id' : GoString) :
    (GetAssetKey id = GetAssetKey id' → id = id') ∧
      (GetAssetKey id).length = 1 + (bytes id).length := by
  constructor
  · intro h
    rw [GetAssetKey_eq_cons, GetAssetKey_eq_cons] at h
    exact List.tail_eq_of_cons_eq h
  · rw [GetAssetKey_eq_cons, List.length_cons, Nat.add_comm]
    rfl

/-- Two byte strings with different first bytes are different. -/
theorem cons_ne_cons_of_head_ne (x y : UInt8) (k k' : List UInt8) (h : x ≠ y) :
    x :: k ≠ y :: k' :=
  fun e => h (List.head_eq_of_cons_eq e)

/-- A one-byte prefix other than the first byte of a key does not start the key. -/
theorem not_singleton_isPrefix_cons (x y : UInt8) (k : List UInt8) (h : x ≠ y) :
    ¬ [x] <+: y :: k := by
  rw [List.cons_prefix_cons]
  exact fun e => h e.1

/-- C4: an asset key, the account keys and the children keys are pairwise different,
none of them starts with the proposal-recipient byte `0x02`, and none of them starts
with the one-byte prefix of another namespace. -/
theorem keys_of_namespaces_never_collide (addrString : Address → GoString)
    (id id' p c p' : GoString) (a a' : Address) :
    let assets := [GetAssetKey id]
    let accounts := [GetAccountAssetKey addrString a id', GetAccountAssetsKey addrString a']
    let childrens := [GetAssetChildrenKey p c, GetAssetChildrensKey p']
    (∀ k ∈ assets, ∀ k' ∈ accounts, k ≠ k') ∧
    (∀ k ∈ assets, ∀ k' ∈ childrens, k ≠ k') ∧
    (∀ k ∈ accounts, ∀ k' ∈ childrens, k ≠ k') ∧
    (∀ k ∈ assets ++ accounts ++ childrens, ¬ ProposalRecipientKey <+: k) ∧
    (∀ k ∈ assets, ¬ AccountAssetKey <+: k ∧ ¬ AssetChildrenKey <+: k) ∧
    (∀ k ∈ accounts, ¬ AssetKey <+: k ∧ ¬ AssetChildrenKey <+: k) ∧
    (∀ k ∈ childrens, ¬ AssetKey <+: k ∧ ¬ AccountAssetKey <+: k) := by
  have h01 : (0x00 : UInt8) ≠ 0x01 := by decide
  have h03 : (0x00 : UInt8) ≠ 0x03 := by decide
  have h13 : (0x01 : UInt8) ≠ 0x03 := by decide
  have h20 : (0x02 : UInt8) ≠ 0x00 := by decide
  have h21 : (0x02 : UInt8) ≠ 0x01 := by decide
  have h23 : (0x02 : UInt8) ≠ 0x03 := by decide
  simp only [List.mem_singleton, List.mem_cons, List.mem_append, List.not_mem_nil,
    or_false, forall_eq, forall_eq_or_imp, or_imp, forall_and,
    GetAssetKey_eq_cons, GetAccountAssetKey_eq_cons, GetAccountAssetsKey_eq_cons,
    GetAssetChildrenKey_eq_cons, GetAssetChildrensKey_eq_cons,
    AssetKey, AccountAssetKey, ProposalRecipientKey, AssetChildrenKey]
  repeat' apply And.intro
  all_goals
    first
      | exact cons_ne_cons_of_head_ne _ _ _ _ (by assumption)
      | exact not_singleton_isPrefix_cons _ _ _ (by assumption)
      | exact not_singleton_isPrefix_cons _ _ _ (Ne.symm (by assumption))

end Ichain.asset

/-! ## Properties of the REST handlers -/

namespace Ichain.rest

/-- C8, as stated, fails: for a valid base request, a known key and the quantity `-5`
the handler returns no error and hands `signAndBuild` a message of quantity `-5`. -/
theorem addAssetQuantity_negative_reaches_signAndBuild :
    addAssetQuantityHandlerFn (fun _ => none) (fun _ => .ok { PubKeyAddress := [0x01] })
        (fun _ => [0x41]) (.ok { BaseReq := sampleBaseReq, Quantity := { i := some (-5) } }) =
      .signAndBuild sampleBaseReq
        { Sender := [0x01], AssetID := [0x41], Quantity := { i := some (-5) } } := by
  rfl

/-- A body without a quantity, whose base request is valid, ends the handler in the
panic of `IsZero`. -/
theorem addAssetQuantity_absent_quantity_panics (validate : baseBody → Option GoError)
    (kbGet : GoString → Except GoError Info) (vars : GoString → GoString)
    (m : addAssetQuantityBody) (hvalid : validate m.BaseReq = none)
    (hnil : m.Quantity.i = none) :
    addAssetQuantityHandlerFn validate kbGet vars (.ok m) = .panic := by
  simp [addAssetQuantityHandlerFn, hvalid, sdkInt.IsZero, hnil]

/-- C8 (amended): for every decoded request body whose base request is valid, a
quantity that is the number zero makes `addAssetQuantityHandlerFn` return the error
`"Quantity is required"` before any message is built; a quantity that is another
number, negative ones included, is not checked: the handler returns the error of the
key lookup or hands `signAndBuild` a `MsgAddQuantity` with that quantity. -/
theorem addAssetQuantity_rejects_zero_only (validate : baseBody → Option GoError)
    (kbGet : GoString → Except GoError Info) (vars : GoString → GoString)
    (m : addAssetQuantityBody) (hvalid : validate m.BaseReq = none) :
    (m.Quantity.i = some 0 →
      addAssetQuantityHandlerFn validate kbGet vars (.ok m) =
        .returned (lit "Quantity is required")) ∧
    (∀ q : Int, m.Quantity.i = some q → q ≠ 0 →
      addAssetQuantityHandlerFn validate kbGet vars (.ok m) =
        match kbGet m.BaseReq.Name with
        | .error err => .returned err
        | .ok info =>
          .signAndBuild m.BaseReq
            { Sender := info.PubKeyAddress, AssetID := vars (lit "id"),
              Quantity := m.Quantity }) := by
  constructor
  · intro hq
    simp [addAssetQuantityHandlerFn, hvalid, sdkInt.IsZero, hq]
  · intro q hq hne
    simp only [addAssetQuantityHandlerFn, hvalid, sdkInt.IsZero, hq, hne, decide_False]

/-- C8 (amended) at work: the quantity `0` with a valid base request and a known key
is answered `"Quantity is required"`. -/
theorem addAssetQuantity_rejects_zero_only_witness :
    addAssetQuantityHandlerFn (fun _ => none) (fun _ => .ok { PubKeyAddress := [0x01] })
        (fun _ => [0x41]) (.ok { BaseReq := sampleBaseReq, Quantity := { i := some 0 } }) =
      .returned (lit "Quantity is required") :=
  (addAssetQuantity_rejects_zero_only (fun _ => none)
    (fun _ => .ok { PubKeyAddress := [0x01] }) (fun _ => [0x41])
    { BaseReq := sampleBaseReq, Quantity := { i := some 0 } } rfl).1 rfl

/-- C9: for every decoded body, an empty account name, password, recipient or
properties list, or the role `0`, is answered `400 Bad Request` with the message of the
first failing check, in that order, and no message is built, signed or broadcast; and a
message that is built carries the URL id, the decoded recipient address and the
properties and role of the body. -/
theorem CreateProposal_builds_for_complete_request {Res : Type} (sv : Services Res)
    (vars : GoString → GoString) (m : createProposalBody) :
    let run := CreateProposalHandlerFn sv vars (.ok m)
    (m.base.LocalAccountName = [] → run.rejectedWith (lit "account_name is required")) ∧
    (m.base.LocalAccountName ≠ [] → m.base.Password = [] →
      run.rejectedWith (lit "password is required")) ∧
    (m.base.LocalAccountName ≠ [] → m.base.Password ≠ [] → m.Recipient = [] →
      run.rejectedWith (lit "recipient is required")) ∧
    (m.base.LocalAccountName ≠ [] → m.base.Password ≠ [] → m.Recipient ≠ [] →
      m.Propertipes = [] → run.rejectedWith (lit "propertipes is required")) ∧
    (m.base.LocalAccountName ≠ [] → m.base.Password ≠ [] → m.Recipient ≠ [] →
      m.Propertipes ≠ [] → m.Role = 0 → run.rejectedWith (lit "ROLE is required")) ∧
    (∀ msg, run.msg = some msg →
      msg.AssetID = vars (lit "id") ∧
      sv.GetAccAddressBech32 m.Recipient = .ok msg.Recipient ∧
      msg.Propertipes = m.Propertipes ∧ msg.Role = m.Role) := by
  intro run
  refine ⟨?_, ?_, ?_, ?_, ?_, ?_⟩
  · intro h1
    simp [run, CreateProposalHandlerFn, h1, Run.rejectedWith, Run.early]
  · intro h1 h2
    simp [run, CreateProposalHandlerFn, h1, h2, Run.rejectedWith, Run.early]
  · intro h1 h2 h3
    simp [run, CreateProposalHandlerFn, h1, h2, h3, Run.rejectedWith, Run.early]
  · intro h1 h2 h3 h4
    simp [run, CreateProposalHandlerFn, h1, h2, h3, h4, Run.rejectedWith, Run.early]
  · intro h1 h2 h3 h4 h5
    simp [run, CreateProposalHandlerFn, h1, h2, h3, h4, h5, Run.rejectedWith, Run.early]
  · intro msg hmsg
    simp only [run, CreateProposalHandlerFn] at hmsg
    split_ifs at hmsg with h1 h2 h3 h4 h5
    all_goals try (simp [Run.early] at hmsg; done)
    cases hrec : sv.GetAccAddressBech32 m.Recipient with
    | error err => simp [hrec, Run.early] at hmsg
    | ok recipient =>
      cases hinfo : sv.kbGet m.base.LocalAccountName with
      | error err => simp [hrec, hinfo, Run.early] at hmsg
      | ok info =>
        simp only [hrec, hinfo] at hmsg
        split at hmsg
        · obtain rfl := Option.some.inj hmsg
          exact ⟨rfl, rfl, rfl, rfl⟩
        · split at hmsg
          · obtain rfl := Option.some.inj hmsg
            exact ⟨rfl, rfl, rfl, rfl⟩
          · split at hmsg
            · obtain rfl := Option.some.inj hmsg
              exact ⟨rfl, rfl, rfl, rfl⟩
            · obtain rfl := Option.some.inj hmsg
              exact ⟨rfl, rfl, rfl, rfl⟩

end Ichain.rest

/-! ## Properties of the replay guard and of the two phases -/

namespace Ichain.app

theorem counter_setCounter_self (store : Counters) (account : Address) (value : Int) :
    counter (setCounter store account value) account = value := by
  simp [counter, setCounter]

theorem counter_setCounter_other (store : Counters) (account other : Address)
    (value : Int) (h : other ≠ account) :
    counter (setCounter store account value) other = counter store other := by
  simp [counter, setCounter, h]

theorem CheckAndAdvance_of_eq (store : Counters) (account : Address) (s : Int)
    (h : s = counter store account) :
    CheckAndAdvance store account s =
      (Result.Ok, setCounter store account (counter store account + 1)) := by
  simp [CheckAndAdvance, h]

theorem CheckAndAdvance_of_ne (store : Counters) (account : Address) (s : Int)
    (h : s ≠ counter store account) :
    CheckAndAdvance store account s = (Result.Err ErrorKind.Unauthorized, store) := by
  simp [CheckAndAdvance, h]

theorem CheckAndAdvance_ok_iff (store : Counters) (account : Address) (s : Int) :
    (CheckAndAdvance store account s).1 = Result.Ok ↔ s = counter store account := by
  by_cases h : s = counter store account
  · rw [CheckAndAdvance_of_eq store account s h]
    exact ⟨fun _ => h, fun _ => rfl⟩
  · rw [CheckAndAdvance_of_ne store account s h]
    exact ⟨fun e => (by cases e), fun e => absurd e h⟩

theorem Validate_ok_iff {Msg : Type} (valid : Msg → Option ErrorKind) (s : State)
    (tx : Tx Msg) :
    (Validate valid s tx).1 = Result.Ok ↔
      tx.sequence = counter s.durable tx.signer ∧ valid tx.msg = none := by
  by_cases h : tx.sequence = counter s.durable tx.signer
  · unfold Validate
    rw [CheckAndAdvance_of_eq _ _ _ h]
    cases hv : valid tx.msg <;> simp [h]
  · unfold Validate
    rw [CheckAndAdvance_of_ne _ _ _ h]
    simp [h]

theorem Deliver_ok_iff {Msg : Type} (valid : Msg → Option ErrorKind) (s : State)
    (tx : Tx Msg) :
    (Deliver valid s tx).1 = Result.Ok ↔
      tx.sequence = counter s.durable tx.signer ∧ valid tx.msg = none := by
  by_cases h : tx.sequence = counter s.durable tx.signer
  · unfold Deliver
    rw [CheckAndAdvance_of_eq _ _ _ h]
    cases hv : valid tx.msg <;> simp [h]
  · unfold Deliver
    rw [CheckAndAdvance_of_ne _ _ _ h]
    simp [h]

theorem Validate_durable {Msg : Type} (valid : Msg → Option ErrorKind) (s : State)
    (tx : Tx Msg) : (Validate valid s tx).2.durable = s.durable := by
  by_cases h : tx.sequence = counter s.durable tx.signer
  · unfold Validate
    rw [CheckAndAdvance_of_eq _ _ _ h]
    cases hv : valid tx.msg <;> rfl
  · unfold Validate
    rw [CheckAndAdvance_of_ne _ _ _ h]

theorem validateAll_durable {Msg : Type} (valid : Msg → Option ErrorKind)
    (txs : List (Tx Msg)) (s : State) : (validateAll valid s txs).durable = s.durable := by
  induction txs generalizing s with
  | nil => rfl
  | cons tx rest ih => rw [validateAll, ih, Validate_durable]

theorem Deliver_of_ok {Msg : Type} (valid : Msg → Option ErrorKind) (s : State)
    (tx : Tx Msg) (h : (Deliver valid s tx).1 = Result.Ok) :
    Deliver valid s tx =
      (Result.Ok,
        { durable := setCounter s.durable tx.signer (counter s.durable tx.signer + 1),
          transient := s.transient }) := by
  obtain ⟨hseq, hv⟩ := (Deliver_ok_iff valid s tx).1 h
  unfold Deliver
  rw [CheckAndAdvance_of_eq _ _ _ hseq, hv]

theorem Deliver_of_ne {Msg : Type} (valid : Msg → Option ErrorKind) (s : State)
    (tx : Tx Msg) (h : tx.sequence ≠ counter s.durable tx.signer) :
    Deliver valid s tx = (Result.Err ErrorKind.Unauthorized, s) := by
  unfold Deliver
  rw [CheckAndAdvance_of_ne _ _ _ h]

/-- C6: the sequence check accepts a declared sequence `s` for an account of current
counter `n` exactly when `s = n`; on acceptance the counter becomes `n + 1`; on
rejection the answer is `Unauthorized` and the store is unchanged. Hence a delivered
transaction, delivered again, is answered `Unauthorized` and changes nothing, and
the same transaction declaring the next sequence is then accepted. -/
theorem replay_protection_by_sequence {Msg : Type} (valid : Msg → Option ErrorKind)
    (store : Counters) (account : Address) (s : Int) (st : State) (tx : Tx Msg) :
    ((CheckAndAdvance store account s).1 = Result.Ok ↔ s = counter store account) ∧
    (s = counter store account →
      counter (CheckAndAdvance store account s).2 account = counter store account + 1) ∧
    (s ≠ counter store account →
      CheckAndAdvance store account s = (Result.Err ErrorKind.Unauthorized, store)) ∧
    ((Deliver valid st tx).1 = Result.Ok →
      Deliver valid (Deliver valid st tx).2 tx =
        (Result.Err ErrorKind.Unauthorized, (Deliver valid st tx).2) ∧
      (Deliver valid (Deliver valid st tx).2
        { signer := tx.signer, sequence := tx.sequence + 1, msg := tx.msg }).1 =
          Result.Ok) := by
  refine ⟨CheckAndAdvance_ok_iff store account s, ?_, CheckAndAdvance_of_ne store account s,
    ?_⟩
  · intro h
    rw [CheckAndAdvance_of_eq store account s h]
    exact counter_setCounter_self _ _ _
  · intro h
    obtain ⟨hseq, hv⟩ := (Deliver_ok_iff valid st tx).1 h
    rw [Deliver_of_ok valid st tx h]
    constructor
    · apply Deliver_of_ne
      show tx.sequence ≠ counter (setCounter st.durable tx.signer _) tx.signer
      rw [counter_setCounter_self, hseq]
      omega
    · rw [Deliver_ok_iff]
      refine ⟨?_, hv⟩
      show tx.sequence + 1 = counter (setCounter st.durable tx.signer _) tx.signer
      rw [counter_setCounter_self, hseq]

theorem replay_protection_by_sequence_witness :
    (Deliver allValid genesis (sampleTx 0)).1 = Result.Ok ∧
    (Deliver allValid (Deliver allValid genesis (sampleTx 0)).2 (sampleTx 0)).1 =
      Result.Err ErrorKind.Unauthorized ∧
    (Deliver allValid (Deliver allValid genesis (sampleTx 0)).2 (sampleTx 1)).1 =
      Result.Ok :=
  have h := (replay_protection_by_sequence allValid genesis.durable [0x0A] 0 genesis
    (sampleTx 0)).2.2.2 (by decide)
  ⟨by decide, congrArg Prod.fst h.1, h.2⟩

/-- The answer of `Validate` is read off the durable state alone. -/
theorem Validate_answer_of_durable_eq {Msg : Type} (valid : Msg → Option ErrorKind)
    (s s' : State) (tx : Tx Msg) (h : s'.durable = s.durable) :
    (Validate valid s' tx).1 = (Validate valid s tx).1 := by
  by_cases hseq : tx.sequence = counter s.durable tx.signer
  · unfold Validate
    rw [h, CheckAndAdvance_of_eq _ _ _ hseq]
    cases hv : valid tx.msg <;> rfl
  · unfold Validate
    rw [h, CheckAndAdvance_of_ne _ _ _ hseq]

/-- C7: running `Validate` any number of times, on any transactions, leaves the
durable state unchanged, and with it the answer of `Validate` to a transaction; so a
transaction that passes `Validate` at its sequence is accepted by the `Deliver` that
follows at the same sequence, whatever was validated in between. -/
theorem validation_keeps_durable_state {Msg : Type} (valid : Msg → Option ErrorKind)
    (s : State) (tx : Tx Msg) (more : List (Tx Msg)) :
    (validateAll valid s more).durable = s.durable ∧
    (Validate valid (validateAll valid s more) tx).1 = (Validate valid s tx).1 ∧
    ((Validate valid s tx).1 = Result.Ok →
      (Deliver valid (validateAll valid (Validate valid s tx).2 more) tx).1 =
        Result.Ok) := by
  refine ⟨validateAll_durable valid more s,
    Validate_answer_of_durable_eq valid s _ tx (validateAll_durable valid more s), ?_⟩
  intro hpass
  obtain ⟨hseq, hv⟩ := (Validate_ok_iff valid s tx).1 hpass
  rw [Deliver_ok_iff, validateAll_durable, Validate_durable]
  exact ⟨hseq, hv⟩

/-- C7 at work: on a fresh chain the transaction of sequence `0` passes `Validate`,
and after three more validations `Deliver` accepts it. -/
theorem validation_keeps_durable_state_witness :
    (Validate allValid genesis (sampleTx 0)).1 = Result.Ok ∧
    (Deliver allValid
      (validateAll allValid (Validate allValid genesis (sampleTx 0)).2
        [sampleTx 0, sampleTx 1, sampleTx 0]) (sampleTx 0)).1 = Result.Ok :=
  ⟨by decide,
    (validation_keeps_durable_state allValid genesis (sampleTx 0)
      [sampleTx 0, sampleTx 1, sampleTx 0]).2.2 (by decide)⟩

end Ichain.app
